import Mathlib

/-!
Shallow embedding of the SAR tracking core (`src/app/crud.py`) together
with the model defaults of `src/app/models.py` and the update payload of
`src/app/schemas.py`.

Conventions of the embedding:
* calendar dates are integer day numbers (`timedelta(days=n)` is `+ n`);
* datetimes are integer minutes, midnight of day `d` being `d * 1440`
  (`datetime.min.time()` is minute 0, `datetime.max.time()` the last
  minute 1439 of the day at this granularity);
* nullable columns are `Option Int`; SQL comparisons on a null column do
  not match, and Python `or` between date values picks the first non-null
  operand because date objects are always truthy;
* raising an exception is returning `Except.error`.
-/

namespace SAR

/-- Python `a or b` on two nullable dates: the first non-null operand. -/
def pyOr (a b : Option Int) : Option Int :=
  match a with
  | some x => some x
  | none => b

/-- The columns of a SAR case row that the core reads
(`models.py:33-63`, mirrored by `schemas.py:114-140`). -/
structure SARCase where
  id : Nat
  case_reference : String
  organization_name : String
  request_type : String
  submission_date : Int
  statutory_deadline : Option Int
  extended_deadline : Option Int
  custom_deadline : Option Int
  status : String
  response_received : Bool
  response_date : Option Int
deriving DecidableEq

/-- Statutory-deadline rule of `create_sar_case_db` (`crud.py:26-31`):
`submission_date + 20` when the request type value is `"FOIA"`, else
`submission_date + 28`. -/
def statutoryDeadlineFor (request_type : String) (submission_date : Int) : Int :=
  if request_type = "FOIA" then submission_date + 20 else submission_date + 28

/-- Case construction of `create_sar_case_db` (`crud.py:34-49`); status and
response fields take the column defaults `"Pending"` and false
(`models.py:51-52`), `extended_deadline` starts null. The generated
`case_reference` string is passed in by the caller. -/
def create_sar_case_db (idv : Nat) (case_reference organization_name request_type : String)
    (submission_date : Int) (custom_deadline : Option Int) : SARCase :=
  { id := idv
    case_reference := case_reference
    organization_name := organization_name
    request_type := request_type
    submission_date := submission_date
    statutory_deadline := some (statutoryDeadlineFor request_type submission_date)
    extended_deadline := none
    custom_deadline := custom_deadline
    status := "Pending"
    response_received := false
    response_date := none }

/-- The `SARUpdate` payload (`schemas.py:97-112`) restricted to the fields
the status pass can read. An outer `some v` means the field was present in
the request (pydantic `exclude_unset`); for nullable columns `v` is itself
the possibly-null value. -/
structure SARUpdate where
  extended_deadline : Option (Option Int) := none
  custom_deadline : Option (Option Int) := none
  status : Option String := none
  response_received : Option Bool := none
  response_date : Option (Option Int) := none
deriving DecidableEq

/-- The field-application loop of `update_sar_case_db` (`crud.py:96-98`):
every field present in the payload is written onto the case. -/
def applyUpdate (u : SARUpdate) (c : SARCase) : SARCase :=
  { c with
    extended_deadline := u.extended_deadline.getD c.extended_deadline
    custom_deadline := u.custom_deadline.getD c.custom_deadline
    status := u.status.getD c.status
    response_received := u.response_received.getD c.response_received
    response_date := u.response_date.getD c.response_date }

/-- Failures the update path can surface. `typeError` is the Python
`TypeError` raised by comparing `date.today() > None`; `configurationError`
stands for the `ConfigurationError` of the specification, which the code
never raises. -/
inductive PyError where
  | typeError
  | configurationError
deriving DecidableEq

/-- Deadline resolution of both update paths (`crud.py:106` and
`crud.py:149`): `extended_deadline or custom_deadline or statutory_deadline`. -/
def updateDeadline (c : SARCase) : Option Int :=
  pyOr c.extended_deadline (pyOr c.custom_deadline c.statutory_deadline)

/-- The status pass of `update_sar_case_db` (`crud.py:100-111`), run after
the payload fields are applied. The Responded branch tests the payload
attribute `sar_data.response_received` (truthy only when set to true);
then `current_date > deadline` is evaluated, which raises `TypeError`
when the resolved deadline is null, before the status is compared to
`"Pending"`. -/
def recomputePass (payload_response_received : Option Bool) (today : Int)
    (c : SARCase) : Except PyError SARCase :=
  let c1 := if payload_response_received.getD false then { c with status := "Responded" } else c
  match updateDeadline c1 with
  | none => .error .typeError
  | some d =>
      .ok (if today > d ∧ c1.status = "Pending" then { c1 with status := "Overdue" } else c1)

/-- `update_sar_case_db` on a found case (`crud.py:96-115`), persistence
stripped: apply the payload fields, then run the status pass. -/
def update_sar_case_db (u : SARUpdate) (today : Int) (c : SARCase) :
    Except PyError SARCase :=
  recomputePass u.response_received today (applyUpdate u c)

/-- The status pass of `update_sar_case_simple_db` (`crud.py:147-152`):
`if deadline and current_date > deadline and sar_case.status == "Pending"`,
so a null resolved deadline is skipped silently and there is no
Responded branch. -/
def simpleRecompute (today : Int) (c : SARCase) : SARCase :=
  match updateDeadline c with
  | none => c
  | some d => if today > d ∧ c.status = "Pending" then { c with status := "Overdue" } else c

/-- Effect of `create_ico_escalation_db` on the case status
(`crud.py:308-310`): unconditionally set to `"Escalated"`. -/
def escalateCaseStatus (c : SARCase) : SARCase := { c with status := "Escalated" }

/-- Modelled from the spec: `effective_deadline` is custom if present, else
extended if present, else statutory (spec section 3). Kept side by side
with the resolutions the code performs, to compare them. -/
def effective_deadline_spec (c : SARCase) : Option Int :=
  pyOr c.custom_deadline (pyOr c.extended_deadline c.statutory_deadline)

/-- Deadline choice of `get_upcoming_deadlines_data` (`crud.py:539`):
`custom_deadline or extended_deadline or statutory_deadline`. -/
def upcomingActualDeadline (c : SARCase) : Option Int :=
  pyOr c.custom_deadline (pyOr c.extended_deadline c.statutory_deadline)

/-- Deadline choice of the calendar deadline events (`crud.py:593`):
`custom_deadline or extended_deadline or statutory_deadline`. -/
def calendarDeadlineDate (c : SARCase) : Option Int :=
  pyOr c.custom_deadline (pyOr c.extended_deadline c.statutory_deadline)

/-- Midnight of day `d` as a minute-granularity datetime,
`datetime.combine(d, datetime.min.time())`. -/
def midnight (d : Int) : Int := d * 1440

/-- Reminder datetime computed by `create_deadline_reminder`
(`crud.py:347-356`): when the deadline day is on or before today the
reminder is midnight of tomorrow, otherwise midnight of the deadline day
minus one day. The guard tests the deadline day, not the offset date. -/
def deadlineReminderDate (today deadline_date : Int) : Int :=
  if deadline_date ≤ today then midnight (today + 1)
  else midnight deadline_date - 1440

/-- Reminder datetime computed by `create_ico_deadline_reminder`
(`crud.py:368-370`): midnight of the deadline day minus seven days,
with no guard at all. -/
def icoReminderDate (deadline_date : Int) : Int := midnight deadline_date - 7 * 1440

/-- SQL `a <= b` on nullable columns: null on either side never matches. -/
def sqlLE (a b : Option Int) : Bool :=
  match a, b with
  | some x, some y => x ≤ y
  | _, _ => false

/-- SQL `a < b` on nullable columns: null on either side never matches. -/
def sqlLT (a b : Option Int) : Bool :=
  match a, b with
  | some x, some y => x < y
  | _, _ => false

/-- SQL `a >= b` on nullable columns: null on either side never matches. -/
def sqlGE (a b : Option Int) : Bool :=
  match a, b with
  | some x, some y => y ≤ x
  | _, _ => false

/-- SQL `a > b` on nullable columns: null on either side never matches. -/
def sqlGT (a b : Option Int) : Bool :=
  match a, b with
  | some x, some y => y < x
  | _, _ => false

/-- Filter of the dashboard `upcoming_deadlines` count (`crud.py:404-414`):
status among Pending and Overdue, and an `or_` over the three deadline
columns compared `>= current_date` independently. -/
def upcomingDeadlinePred (today : Int) (c : SARCase) : Bool :=
  (c.status == "Pending" || c.status == "Overdue") &&
  (sqlGE c.statutory_deadline (some today) ||
   sqlGE c.extended_deadline (some today) ||
   sqlGE c.custom_deadline (some today))

/-- Filter of the dashboard `overdue_deadlines` count (`crud.py:416-426`):
status among Pending and Overdue, and an `or_` over the three deadline
columns compared `< current_date` independently. -/
def overdueDeadlinePred (today : Int) (c : SARCase) : Bool :=
  (c.status == "Pending" || c.status == "Overdue") &&
  (sqlLT c.statutory_deadline (some today) ||
   sqlLT c.extended_deadline (some today) ||
   sqlLT c.custom_deadline (some today))

/-- The `upcoming_deadlines` count of `get_dashboard_data`. -/
def dashboardUpcomingCount (today : Int) (cases : List SARCase) : Nat :=
  cases.countP (upcomingDeadlinePred today)

/-- The `overdue_deadlines` count of `get_dashboard_data`. -/
def dashboardOverdueCount (today : Int) (cases : List SARCase) : Nat :=
  cases.countP (overdueDeadlinePred today)

/-- One row of `get_organization_performance_data` (`crud.py:498-516`).
The two averaged metrics are rationals standing for the Python float
divisions; `none` is the Python `None`. -/
structure OrgPerformance where
  organization_name : String
  total_sars : Nat
  responded_on_time : Nat
  responded_late : Nat
  ignored : Nat
  average_response_time : Option ℚ
  compliance_rating : Option ℚ
deriving DecidableEq

/-- The `response_times` query (`crud.py:487-496`): the day difference
`response_date - submission_date` over the cases of the organization with
`response_received` set and a non-null `response_date`; `getD 0` is
unreachable under the `isSome` filter. -/
def responseTimes (org : String) (cases : List SARCase) : List Int :=
  (cases.filter (fun c =>
      c.organization_name == org && c.response_received && c.response_date.isSome)).map
    (fun c => c.response_date.getD 0 - c.submission_date)

/-- One organization of the loop in `get_organization_performance_data`
(`crud.py:451-516`): the four counts, the average response time
(`None` when no response-dated case exists), and the compliance rating
(`None` when the total is zero, else on-time over total times 100). -/
def organizationPerformanceRow (org : String) (today : Int)
    (cases : List SARCase) : OrgPerformance :=
  let total_sars := (cases.filter (fun c => c.organization_name == org)).length
  let on_time := (cases.filter (fun c => c.organization_name == org &&
      c.response_received && sqlLE c.response_date c.statutory_deadline)).length
  let late := (cases.filter (fun c => c.organization_name == org &&
      c.response_received && sqlGT c.response_date c.statutory_deadline)).length
  let ignored := (cases.filter (fun c => c.organization_name == org &&
      !c.response_received && sqlLT c.statutory_deadline (some today))).length
  let rts := responseTimes org cases
  let avg : Option ℚ :=
    if rts.isEmpty then none
    else some ((rts.map (fun n => (n : ℚ))).sum / (rts.length : ℚ))
  let rating : Option ℚ :=
    if 0 < total_sars then some ((on_time : ℚ) / (total_sars : ℚ) * 100) else none
  { organization_name := org
    total_sars := total_sars
    responded_on_time := on_time
    responded_late := late
    ignored := ignored
    average_response_time := avg
    compliance_rating := rating }

/-- The reminder columns the calendar reads (`models.py:170-187`). -/
structure ReminderRow where
  id : Nat
  sar_case_id : Option Nat
  title : String
  description : String
  reminder_date : Int
  is_completed : Bool
deriving DecidableEq

/-- A normalized calendar event (`crud.py:596-645`). -/
structure CalendarEvent where
  id : String
  title : String
  description : String
  event_date : Int
  event_type : String
  sar_case_id : Option Nat
  is_overdue : Bool
deriving DecidableEq

/-- Filter of the calendar deadline query (`crud.py:580-590`): status among
Pending and Overdue, and an `or_` asking any of the three nullable deadline
columns to lie inside `[start_date, end_date]`. -/
def inDeadlineWindow (s e : Int) (c : SARCase) : Bool :=
  (c.status == "Pending" || c.status == "Overdue") &&
  ((sqlGE c.statutory_deadline (some s) && sqlLE c.statutory_deadline (some e)) ||
   (sqlGE c.extended_deadline (some s) && sqlLE c.extended_deadline (some e)) ||
   (sqlGE c.custom_deadline (some s) && sqlLE c.custom_deadline (some e)))

/-- The `deadline_type` label (`crud.py:594`). -/
def deadlineTypeName (c : SARCase) : String :=
  if c.custom_deadline.isSome then "Custom"
  else if c.extended_deadline.isSome then "Extended"
  else "Statutory"

/-- The deadline event built at `crud.py:596-604`; the window filter
guarantees some deadline column is non-null, so `getD 0` is unreachable. -/
def mkDeadlineEvent (today : Int) (c : SARCase) : CalendarEvent :=
  let d := (calendarDeadlineDate c).getD 0
  { id := "deadline_" ++ toString c.id
    title := "Deadline: " ++ c.case_reference
    description := deadlineTypeName c ++ " deadline for " ++ c.organization_name
    event_date := midnight d
    event_type := "Deadline"
    sar_case_id := some c.id
    is_overdue := decide (d < today) }

/-- Filter of the calendar creation query (`crud.py:607-613`). -/
def inCreationWindow (s e : Int) (c : SARCase) : Bool :=
  decide (s ≤ c.submission_date ∧ c.submission_date ≤ e)

/-- The creation event built at `crud.py:615-624`. -/
def mkCreationEvent (c : SARCase) : CalendarEvent :=
  { id := "creation_" ++ toString c.id
    title := "SAR Created: " ++ c.case_reference
    description := "SAR case submitted for " ++ c.organization_name
    event_date := midnight c.submission_date
    event_type := "Case Creation"
    sar_case_id := some c.id
    is_overdue := false }

/-- Filter of the calendar reminder query (`crud.py:627-634`): reminder
datetime between midnight of the start day and the last minute of the end
day, and not completed. -/
def inReminderWindow (s e : Int) (r : ReminderRow) : Bool :=
  decide (midnight s ≤ r.reminder_date ∧ r.reminder_date ≤ midnight e + 1439) &&
  !r.is_completed

/-- The reminder event built at `crud.py:636-645`; `now` is the minute of
`datetime.now()` used for `is_overdue`. -/
def mkReminderEvent (now : Int) (r : ReminderRow) : CalendarEvent :=
  { id := "reminder_" ++ toString r.id
    title := "Reminder: " ++ r.title
    description := r.description
    event_date := r.reminder_date
    event_type := "Reminder"
    sar_case_id := r.sar_case_id
    is_overdue := decide (r.reminder_date < now) }

/-- Ordering key of `events.sort` (`crud.py:648`). -/
def eventLE (a b : CalendarEvent) : Bool := a.event_date ≤ b.event_date

/-- `get_calendar_events_data` (`crud.py:562-650`): the three event sources
concatenated in source order, then stably sorted ascending by `event_date`
as the Python `list.sort` with that key does. -/
def get_calendar_events_data (s e today now : Int) (cases : List SARCase)
    (reminders : List ReminderRow) : List CalendarEvent :=
  (((cases.filter (inDeadlineWindow s e)).map (mkDeadlineEvent today)) ++
   ((cases.filter (inCreationWindow s e)).map mkCreationEvent) ++
   ((reminders.filter (inReminderWindow s e)).map (mkReminderEvent now))).mergeSort eventLE

/-- A Pending case used to exercise the status passes: statutory deadline
day 3, no overrides, no response. -/
def caseC7 : SARCase :=
  { id := 1, case_reference := "SAR-202401-CCCCCCCC", organization_name := "Acme",
    request_type := "Personal Data", submission_date := 0,
    statutory_deadline := some 3, extended_deadline := none, custom_deadline := none,
    status := "Pending", response_received := false, response_date := none }

/-- The same case after the overdue transition. -/
def caseC7over : SARCase := { caseC7 with status := "Overdue" }

/-- A Pending case carrying both overrides: custom deadline day 10 in the
future, extended deadline day 0 in the past, statutory day 20. -/
def caseC1 : SARCase :=
  { id := 2, case_reference := "SAR-202401-DDDDDDDD", organization_name := "Acme",
    request_type := "Personal Data", submission_date := 0,
    statutory_deadline := some 20, extended_deadline := some 0, custom_deadline := some 10,
    status := "Pending", response_received := false, response_date := none }

/-- An escalated case with its statutory deadline on day 0. -/
def caseC2 : SARCase :=
  { id := 3, case_reference := "SAR-202401-EEEEEEEE", organization_name := "Acme",
    request_type := "Personal Data", submission_date := 0,
    statutory_deadline := some 0, extended_deadline := none, custom_deadline := none,
    status := "Escalated", response_received := false, response_date := none }

/-- An update payload that only reports a received response. -/
def updC2 : SARUpdate := { response_received := some true }

/-- A case whose stored `response_received` is true while the status is
still Pending, with a statutory deadline in the future. -/
def caseC4 : SARCase :=
  { id := 4, case_reference := "SAR-202401-FFFFFFFF", organization_name := "Acme",
    request_type := "Personal Data", submission_date := 0,
    statutory_deadline := some 10, extended_deadline := none, custom_deadline := none,
    status := "Pending", response_received := true, response_date := some 3 }

/-- A responded case with all three deadline columns null. -/
def caseC5 : SARCase :=
  { id := 5, case_reference := "SAR-202401-GGGGGGGG", organization_name := "Acme",
    request_type := "Personal Data", submission_date := 0,
    statutory_deadline := none, extended_deadline := none, custom_deadline := none,
    status := "Responded", response_received := true, response_date := some 1 }

/-- A responded case whose custom (hence effective) deadline is day 5,
submitted on day 50. -/
def caseC9 : SARCase :=
  { id := 9, case_reference := "SAR-202401-HHHHHHHH", organization_name := "Acme",
    request_type := "Personal Data", submission_date := 50,
    statutory_deadline := some 40, extended_deadline := none, custom_deadline := some 5,
    status := "Responded", response_received := true, response_date := some 2 }

/-- The same case while still Pending. -/
def caseC9w : SARCase := { caseC9 with status := "Pending" }

/-- A Pending case with its statutory deadline in the past (day 3) and its
custom deadline in the future (day 9). -/
def caseC10 : SARCase :=
  { id := 10, case_reference := "SAR-202401-IIIIIIII", organization_name := "Acme",
    request_type := "Personal Data", submission_date := 0,
    statutory_deadline := some 3, extended_deadline := none, custom_deadline := some 9,
    status := "Pending", response_received := false, response_date := none }

/-! Helper lemmas shared by several verification results. -/

/-- Setting the status does not change the deadline resolution. -/
theorem updateDeadline_setStatus (c : SARCase) (s : String) :
    updateDeadline { c with status := s } = updateDeadline c := rfl

/-- Projection of a status write. -/
theorem setStatus_status (c : SARCase) (s : String) :
    ({ c with status := s } : SARCase).status = s := rfl

/-- Writing the status a case already has is the identity. -/
theorem setStatus_self (c : SARCase) (s : String) (h : c.status = s) :
    { c with status := s } = c := by
  cases c
  simp_all

/-- Case analysis of the status pass of `update_sar_case_db`: a null
resolved deadline raises, a truthy payload flag yields Responded, an
expired deadline on a Pending case yields Overdue, and otherwise the case
is unchanged. -/
theorem recomputePass_eq (r : Option Bool) (today : Int) (c : SARCase) :
    recomputePass r today c =
      match updateDeadline c with
      | none => .error .typeError
      | some d =>
          if r.getD false then .ok { c with status := "Responded" }
          else if today > d ∧ c.status = "Pending" then .ok { c with status := "Overdue" }
          else .ok c := by
  unfold recomputePass
  cases hr : r.getD false
  · simp only [hr, Bool.false_eq_true, if_false]
    cases hd : updateDeadline c
    · rfl
    · simp only
      split
      · rfl
      · rfl
  · simp only [hr, if_true, updateDeadline_setStatus]
    cases hd : updateDeadline c
    · rfl
    · simp

/-- The simple status pass either keeps the case or only flips the status
to Overdue. -/
theorem simpleRecompute_result (today : Int) (c : SARCase) :
    simpleRecompute today c = c ∨
    simpleRecompute today c = { c with status := "Overdue" } := by
  unfold simpleRecompute
  cases hd : updateDeadline c
  · exact Or.inl rfl
  · simp only
    split
    · exact Or.inr rfl
    · exact Or.inl rfl

/-- The simple status pass leaves every case whose status is not Pending
unchanged. -/
theorem simpleRecompute_of_ne (today : Int) (c : SARCase) (h : c.status ≠ "Pending") :
    simpleRecompute today c = c := by
  unfold simpleRecompute
  cases hd : updateDeadline c
  · rfl
  · simp only
    rw [if_neg]
    intro hc
    exact h hc.2

/-- C3: for every submission date, case creation computes the statutory
deadline as submission plus 20 days for the FOIA classification and
submission plus 28 days for every other classification, and the stored
statutory deadline is never changed by the update paths afterwards. -/
theorem statutory_deadline_rule (idv : Nat) (ref org rt : String)
    (sub : Int) (cd : Option Int) :
    (rt = "FOIA" →
      (create_sar_case_db idv ref org rt sub cd).statutory_deadline = some (sub + 20)) ∧
    (rt ≠ "FOIA" →
      (create_sar_case_db idv ref org rt sub cd).statutory_deadline = some (sub + 28)) ∧
    (∀ u c, (applyUpdate u c).statutory_deadline = c.statutory_deadline) ∧
    (∀ r today c c', recomputePass r today c = Except.ok c' →
      c'.statutory_deadline = c.statutory_deadline) ∧
    (∀ today c, (simpleRecompute today c).statutory_deadline = c.statutory_deadline) := by
  refine ⟨?_, ?_, ?_, ?_, ?_⟩
  · intro h
    simp [create_sar_case_db, statutoryDeadlineFor, h]
  · intro h
    simp [create_sar_case_db, statutoryDeadlineFor, h]
  · intro u c
    rfl
  · intro r today c c' h
    rw [recomputePass_eq] at h
    cases hd : updateDeadline c
    · rw [hd] at h
      exact Except.noConfusion h
    · rename_i d
      rw [hd] at h
      simp only at h
      by_cases hr : r.getD false = true
      · rw [if_pos hr] at h
        injection h with h1
        rw [← h1]
      · rw [if_neg hr] at h
        by_cases hp : today > d ∧ c.status = "Pending"
        · rw [if_pos hp] at h
          injection h with h1
          rw [← h1]
        · rw [if_neg hp] at h
          injection h with h1
          rw [← h1]
  · intro today c
    rcases simpleRecompute_result today c with h | h
    · rw [h]
    · rw [h]

/-- Witness for `statutory_deadline_rule` at a FOIA and a non-FOIA input. -/
theorem statutory_deadline_rule_witness :
    (create_sar_case_db 1 "SAR-202401-AAAAAAAA" "Acme" "FOIA" 0 none).statutory_deadline
        = some 20 ∧
    (create_sar_case_db 2 "SAR-202401-BBBBBBBB" "Acme" "Personal Data" 0 none).statutory_deadline
        = some 28 := by
  constructor
  · exact (statutory_deadline_rule 1 "SAR-202401-AAAAAAAA" "Acme" "FOIA" 0 none).1 rfl
  · exact (statutory_deadline_rule 2 "SAR-202401-BBBBBBBB" "Acme" "Personal Data" 0 none).2.1
      (by decide)

/-- C7: the status pass of `update_sar_case_db` is idempotent: when it
returns a case, running it again on that case with the same payload flag
and the same current date returns the same case; the status pass of
`update_sar_case_simple_db` is idempotent on the nose. -/
theorem recompute_status_idempotent (r : Option Bool) (today : Int) (c c' : SARCase)
    (h : recomputePass r today c = Except.ok c') :
    recomputePass r today c' = Except.ok c' ∧
    (∀ c2, simpleRecompute today (simpleRecompute today c2) = simpleRecompute today c2) := by
  constructor
  · rw [recomputePass_eq] at h
    rw [recomputePass_eq]
    cases hd : updateDeadline c
    · rw [hd] at h
      exact Except.noConfusion h
    · rename_i d
      rw [hd] at h
      simp only at h
      by_cases hr : r.getD false = true
      · rw [if_pos hr] at h
        injection h with h1
        rw [← h1, updateDeadline_setStatus, hd]
        simp only
        rw [if_pos hr]
      · rw [if_neg hr] at h
        by_cases hp : today > d ∧ c.status = "Pending"
        · rw [if_pos hp] at h
          injection h with h1
          have hnp : ¬(today > d ∧
              ({ c with status := "Overdue" } : SARCase).status = "Pending") := by
            intro hc
            rw [setStatus_status] at hc
            exact absurd hc.2 (by decide)
          rw [← h1, updateDeadline_setStatus, hd]
          simp only
          rw [if_neg hr, if_neg hnp]
        · rw [if_neg hp] at h
          injection h with h1
          rw [← h1, hd]
          simp only
          rw [if_neg hr, if_neg hp]
  · intro c2
    rcases simpleRecompute_result today c2 with h2 | h2
    · rw [h2, h2]
    · rw [h2]
      apply simpleRecompute_of_ne
      simp

/-- Witness for `recompute_status_idempotent`: a Pending case past its
statutory deadline becomes Overdue and a second pass keeps it Overdue. -/
theorem recompute_status_idempotent_witness :
    recomputePass none 5 caseC7 = Except.ok caseC7over ∧
    (recomputePass none 5 caseC7over = Except.ok caseC7over ∧
      (∀ c2, simpleRecompute 5 (simpleRecompute 5 c2) = simpleRecompute 5 c2)) :=
  ⟨rfl, recompute_status_idempotent none 5 caseC7 caseC7over rfl⟩

/-- C1, counterexample: on a Pending case with custom deadline day 10 and
extended deadline day 0, at day 5 the status pass marks the case Overdue,
although the custom-over-extended-over-statutory effective deadline (day
10) has not passed: the update paths do not use that precedence. -/
theorem update_precedence_counterexample :
    effective_deadline_spec caseC1 = some 10 ∧
    ¬((5 : Int) > 10) ∧
    (simpleRecompute 5 caseC1).status = "Overdue" ∧
    recomputePass none 5 caseC1 = Except.ok { caseC1 with status := "Overdue" } :=
  ⟨rfl, by decide, rfl, rfl⟩

/-- C1, amended: upcoming-deadline rows and calendar deadline events
resolve the deadline custom over extended over statutory, but the status
recomputation of both update paths resolves extended over custom over
statutory; the two resolutions agree whenever the extended or the custom
deadline is absent. -/
theorem deadline_precedence_amended (c : SARCase) :
    upcomingActualDeadline c = effective_deadline_spec c ∧
    calendarDeadlineDate c = effective_deadline_spec c ∧
    updateDeadline c = pyOr c.extended_deadline (pyOr c.custom_deadline c.statutory_deadline) ∧
    (c.extended_deadline = none ∨ c.custom_deadline = none →
      updateDeadline c = effective_deadline_spec c) := by
  refine ⟨rfl, rfl, rfl, ?_⟩
  intro h
  unfold updateDeadline effective_deadline_spec
  rcases h with h | h
  · rw [h]
    cases hc : c.custom_deadline
    · simp [pyOr]
    · simp [pyOr]
  · rw [h]
    cases he : c.extended_deadline
    · simp [pyOr]
    · simp [pyOr]

/-- Witness for `deadline_precedence_amended` on a case without overrides. -/
theorem deadline_precedence_amended_witness :
    (caseC7.extended_deadline = none ∨ caseC7.custom_deadline = none) ∧
    updateDeadline caseC7 = effective_deadline_spec caseC7 :=
  ⟨Or.inl rfl, (deadline_precedence_amended caseC7).2.2.2 (Or.inl rfl)⟩

/-- C2, counterexample: updating an Escalated case with a payload whose
`response_received` is true moves its status to Responded, so the ordinary
recomputation after an update does change an Escalated status. -/
theorem sticky_status_counterexample :
    caseC2.status = "Escalated" ∧
    update_sar_case_db updC2 0 caseC2 =
      Except.ok { caseC2 with status := "Responded", response_received := true } :=
  ⟨rfl, rfl⟩

/-- C2, amended: an Escalated or Complete status survives the status pass
of both update paths whenever the payload does not set `response_received`
truthy, and escalation creation unconditionally forces Escalated; but a
payload with `response_received = true` overwrites an Escalated or
Complete status with Responded. -/
theorem sticky_status_amended (r : Option Bool) (today : Int) (c : SARCase)
    (hs : c.status = "Escalated" ∨ c.status = "Complete")
    (hr : r.getD false = false) :
    (recomputePass r today c = Except.ok c ∨
      recomputePass r today c = Except.error PyError.typeError) ∧
    simpleRecompute today c = c ∧
    (escalateCaseStatus c).status = "Escalated" ∧
    (∀ d, updateDeadline c = some d →
      recomputePass (some true) today c = Except.ok { c with status := "Responded" }) := by
  have hnp : c.status ≠ "Pending" := by
    rcases hs with h | h <;> rw [h] <;> decide
  refine ⟨?_, simpleRecompute_of_ne today c hnp, rfl, ?_⟩
  · rw [recomputePass_eq]
    cases hd : updateDeadline c
    · exact Or.inr rfl
    · refine Or.inl ?_
      simp only
      rw [if_neg (by rw [hr]; decide), if_neg (fun hc => hnp hc.2)]
  · intro d hd
    rw [recomputePass_eq, hd]
    rfl

/-- Witness for `sticky_status_amended` on the escalated case. -/
theorem sticky_status_amended_witness :
    (caseC2.status = "Escalated" ∨ caseC2.status = "Complete") ∧
    ((recomputePass none 0 caseC2 = Except.ok caseC2 ∨
        recomputePass none 0 caseC2 = Except.error PyError.typeError) ∧
      simpleRecompute 0 caseC2 = caseC2 ∧
      (escalateCaseStatus caseC2).status = "Escalated" ∧
      (∀ d, updateDeadline caseC2 = some d →
        recomputePass (some true) 0 caseC2 = Except.ok { caseC2 with status := "Responded" })) :=
  ⟨Or.inl rfl, sticky_status_amended none 0 caseC2 (Or.inl rfl) rfl⟩

/-- C4, counterexample: a case whose stored `response_received` is true and
whose status is Pending survives both status passes unchanged when the
update payload leaves `response_received` unset, so a true response flag
does coexist with a Pending status after a recomputation pass. -/
theorem response_pending_counterexample :
    caseC4.response_received = true ∧
    caseC4.status = "Pending" ∧
    update_sar_case_db ({} : SARUpdate) 5 caseC4 = Except.ok caseC4 ∧
    simpleRecompute 5 caseC4 = caseC4 :=
  ⟨rfl, rfl, rfl, rfl⟩

/-- C4, amended: the Responded branch of `update_sar_case_db` tests the
payload flag, not the stored column: a truthy payload flag forces
Responded before (and thereby shielding from) the overdue check whatever
the prior status; with the flag unset or false the pass can only keep the
status or set Overdue, and the status pass of `update_sar_case_simple_db`
never sets Responded at all. -/
theorem responded_branch_amended (r : Option Bool) (today d : Int) (c : SARCase)
    (hd : updateDeadline c = some d) :
    recomputePass (some true) today c = Except.ok { c with status := "Responded" } ∧
    (r.getD false = false → ∀ c', recomputePass r today c = Except.ok c' →
      c'.status = c.status ∨ c'.status = "Overdue") ∧
    ((simpleRecompute today c).status = c.status ∨
      (simpleRecompute today c).status = "Overdue") := by
  refine ⟨?_, ?_, ?_⟩
  · rw [recomputePass_eq, hd]
    rfl
  · intro hr c' h
    rw [recomputePass_eq, hd] at h
    simp only at h
    rw [if_neg (by rw [hr]; decide)] at h
    by_cases hp : today > d ∧ c.status = "Pending"
    · rw [if_pos hp] at h
      injection h with h1
      rw [← h1]
      exact Or.inr rfl
    · rw [if_neg hp] at h
      injection h with h1
      rw [← h1]
      exact Or.inl rfl
  · rcases simpleRecompute_result today c with h | h
    · rw [h]
      exact Or.inl rfl
    · rw [h]
      exact Or.inr rfl

/-- Witness for `responded_branch_amended` on the responded-but-Pending
case. -/
theorem responded_branch_amended_witness :
    updateDeadline caseC4 = some 10 ∧
    (recomputePass (some true) 5 caseC4 = Except.ok { caseC4 with status := "Responded" } ∧
      ((none : Option Bool).getD false = false →
        ∀ c', recomputePass none 5 caseC4 = Except.ok c' →
          c'.status = caseC4.status ∨ c'.status = "Overdue") ∧
      ((simpleRecompute 5 caseC4).status = caseC4.status ∨
        (simpleRecompute 5 caseC4).status = "Overdue")) :=
  ⟨rfl, responded_branch_amended none 5 10 caseC4 rfl⟩

/-- C5, counterexample: with all three deadline columns null,
`update_sar_case_db` raises a `TypeError` even though the case is
Responded and no Overdue decision is needed, and the simple update path
silently skips instead of raising; `ConfigurationError` is never raised. -/
theorem no_deadline_error_counterexample :
    caseC5.statutory_deadline = none ∧
    caseC5.extended_deadline = none ∧
    caseC5.custom_deadline = none ∧
    caseC5.status ≠ "Pending" ∧
    update_sar_case_db ({} : SARUpdate) 0 caseC5 = Except.error PyError.typeError ∧
    PyError.typeError ≠ PyError.configurationError ∧
    simpleRecompute 0 { caseC5 with status := "Pending" } =
      { caseC5 with status := "Pending" } :=
  ⟨rfl, rfl, rfl, by decide, rfl, by decide, rfl⟩

/-- C5, amended: the status pass of `update_sar_case_db` raises `TypeError`
(never `ConfigurationError`) exactly when the resolved deadline is null,
whether or not an Overdue decision is needed, and the status pass of
`update_sar_case_simple_db` never raises, silently keeping the case when
the resolved deadline is null. -/
theorem recompute_error_amended (r : Option Bool) (today : Int) (c : SARCase) :
    (updateDeadline c = none → recomputePass r today c = Except.error PyError.typeError) ∧
    (∀ d, updateDeadline c = some d → ∃ c', recomputePass r today c = Except.ok c') ∧
    (updateDeadline c = none → simpleRecompute today c = c) := by
  refine ⟨?_, ?_, ?_⟩
  · intro h
    rw [recomputePass_eq, h]
  · intro d h
    rw [recomputePass_eq, h]
    simp only
    by_cases hr : r.getD false = true
    · exact ⟨{ c with status := "Responded" }, by rw [if_pos hr]⟩
    · rw [if_neg hr]
      by_cases hp : today > d ∧ c.status = "Pending"
      · exact ⟨{ c with status := "Overdue" }, by rw [if_pos hp]⟩
      · exact ⟨c, by rw [if_neg hp]⟩
  · intro h
    unfold simpleRecompute
    rw [h]

/-- Witness for `recompute_error_amended` on the all-null-deadline case. -/
theorem recompute_error_amended_witness :
    updateDeadline caseC5 = none ∧
    recomputePass none 0 caseC5 = Except.error PyError.typeError ∧
    simpleRecompute 0 caseC5 = caseC5 :=
  ⟨rfl, (recompute_error_amended none 0 caseC5).1 rfl,
    (recompute_error_amended none 0 caseC5).2.2 rfl⟩

/-- C6, counterexample: with the scheduling moment at minute 600 of day 10,
a case deadline on day 11 yields a reminder at midnight of day 10, in the
past and not replaced by scheduling moment plus one day; a regulator
deadline on day 10 yields a reminder at midnight of day 3, also in the
past and not replaced. -/
theorem reminder_future_counterexample :
    deadlineReminderDate 10 11 = midnight 10 ∧
    ¬(midnight 10 > 10 * 1440 + 600) ∧
    deadlineReminderDate 10 11 ≠ midnight (10 + 1) ∧
    icoReminderDate 10 = midnight 3 ∧
    ¬(midnight 3 > 10 * 1440 + 600) := by
  refine ⟨by decide, by decide, by decide, by decide, by decide⟩

/-- C6, amended: the case deadline reminder is midnight of the deadline day
minus one day, replaced by midnight of today plus one day (which is
strictly future) only when the deadline day is on or before today — the
guard tests the deadline day, not the offset; the regulator reminder is
always midnight of its deadline day minus seven days, with no guard. -/
theorem reminder_dates_amended (today deadline tm : Int)
    (h0 : 0 ≤ tm) (h1 : tm < 1440) :
    (deadline ≤ today →
      deadlineReminderDate today deadline = midnight (today + 1) ∧
      today * 1440 + tm < deadlineReminderDate today deadline) ∧
    (today < deadline →
      deadlineReminderDate today deadline = midnight deadline - 1440) ∧
    icoReminderDate deadline = midnight deadline - 7 * 1440 := by
  refine ⟨?_, ?_, rfl⟩
  · intro h
    constructor
    · unfold deadlineReminderDate
      rw [if_pos h]
    · unfold deadlineReminderDate midnight
      rw [if_pos h]
      have hexp : (today + 1) * 1440 = today * 1440 + 1440 := by ring
      rw [hexp]
      omega
  · intro h
    unfold deadlineReminderDate
    rw [if_neg (not_le.mpr h)]

/-- Witness for `reminder_dates_amended`: today day 5 at minute 600, a
deadline on day 3 defers the reminder to midnight of day 6. -/
theorem reminder_dates_amended_witness :
    (0 : Int) ≤ 600 ∧ (600 : Int) < 1440 ∧ (3 : Int) ≤ 5 ∧
    deadlineReminderDate 5 3 = midnight (5 + 1) ∧
    (5 : Int) * 1440 + 600 < deadlineReminderDate 5 3 ∧
    icoReminderDate 3 = midnight 3 - 7 * 1440 := by
  have h := reminder_dates_amended 5 3 600 (by decide) (by decide)
  exact ⟨by decide, by decide, by decide, (h.1 (by decide)).1, (h.1 (by decide)).2, h.2.2⟩

/-- C8: in every per-organization performance row, the compliance rating
is absent when the total request count is zero and equals on-time over
total times 100 otherwise, and the average response time is computed over
exactly the response-dated cases of the organization and is absent when
there are none. -/
theorem org_performance_division_guards (org : String) (today : Int)
    (cases : List SARCase) :
    ((organizationPerformanceRow org today cases).total_sars = 0 →
      (organizationPerformanceRow org today cases).compliance_rating = none) ∧
    (0 < (organizationPerformanceRow org today cases).total_sars →
      (organizationPerformanceRow org today cases).compliance_rating =
        some (((organizationPerformanceRow org today cases).responded_on_time : ℚ) /
          ((organizationPerformanceRow org today cases).total_sars : ℚ) * 100)) ∧
    (responseTimes org cases = [] →
      (organizationPerformanceRow org today cases).average_response_time = none) ∧
    (responseTimes org cases ≠ [] →
      (organizationPerformanceRow org today cases).average_response_time =
        some (((responseTimes org cases).map (fun n => (n : ℚ))).sum /
          ((responseTimes org cases).length : ℚ))) := by
  refine ⟨?_, ?_, ?_, ?_⟩
  · intro h
    simp only [organizationPerformanceRow] at h ⊢
    rw [if_neg]
    omega
  · intro h
    simp only [organizationPerformanceRow] at h ⊢
    rw [if_pos h]
  · intro h
    simp only [organizationPerformanceRow]
    rw [if_pos (by rw [h]; rfl)]
  · intro h
    simp only [organizationPerformanceRow]
    rw [if_neg (by simp [List.isEmpty_iff]; exact h)]

/-- Witness for `org_performance_division_guards`: with no cases the rating
and the average are absent; with one never-responded case the total is one
and the rating is a real division. -/
theorem org_performance_division_guards_witness :
    (organizationPerformanceRow "Acme" 0 []).total_sars = 0 ∧
    (organizationPerformanceRow "Acme" 0 []).compliance_rating = none ∧
    responseTimes "Acme" [] = [] ∧
    (organizationPerformanceRow "Acme" 0 []).average_response_time = none ∧
    0 < (organizationPerformanceRow "Acme" 5 [caseC7]).total_sars ∧
    (organizationPerformanceRow "Acme" 5 [caseC7]).compliance_rating =
      some (((organizationPerformanceRow "Acme" 5 [caseC7]).responded_on_time : ℚ) /
        ((organizationPerformanceRow "Acme" 5 [caseC7]).total_sars : ℚ) * 100) :=
  ⟨rfl, (org_performance_division_guards "Acme" 0 []).1 rfl, rfl,
    (org_performance_division_guards "Acme" 0 []).2.2.1 rfl, by decide,
    (org_performance_division_guards "Acme" 5 [caseC7]).2.1 (by decide)⟩

/-- C10: the dashboard deadline counts test the three deadline columns
independently, so a Pending or Overdue case with one deadline column
before today and another on or after today satisfies both filters and is
counted in both `upcoming_deadlines` and `overdue_deadlines`. -/
theorem dashboard_counts_both (today : Int) (cases : List SARCase) (c : SARCase)
    (hmem : c ∈ cases)
    (hst : c.status = "Pending" ∨ c.status = "Overdue")
    (hlt : sqlLT c.statutory_deadline (some today) = true ∨
      sqlLT c.extended_deadline (some today) = true ∨
      sqlLT c.custom_deadline (some today) = true)
    (hge : sqlGE c.statutory_deadline (some today) = true ∨
      sqlGE c.extended_deadline (some today) = true ∨
      sqlGE c.custom_deadline (some today) = true) :
    upcomingDeadlinePred today c = true ∧
    overdueDeadlinePred today c = true ∧
    0 < dashboardUpcomingCount today cases ∧
    0 < dashboardOverdueCount today cases := by
  have hs : (c.status == "Pending" || c.status == "Overdue") = true := by
    rcases hst with h | h <;> rw [h] <;> rfl
  have hu : upcomingDeadlinePred today c = true := by
    unfold upcomingDeadlinePred
    rw [hs]
    rcases hge with h | h | h <;> rw [h] <;> simp
  have ho : overdueDeadlinePred today c = true := by
    unfold overdueDeadlinePred
    rw [hs]
    rcases hlt with h | h | h <;> rw [h] <;> simp
  exact ⟨hu, ho, List.countP_pos_iff.mpr ⟨c, hmem, hu⟩,
    List.countP_pos_iff.mpr ⟨c, hmem, ho⟩⟩

/-- Witness for `dashboard_counts_both`: a Pending case with its statutory
deadline on day 3 and its custom deadline on day 9, at day 5, is counted
in both dashboard deadline counts. -/
theorem dashboard_counts_both_witness :
    caseC10 ∈ [caseC10] ∧
    caseC10.status = "Pending" ∧
    sqlLT caseC10.statutory_deadline (some 5) = true ∧
    sqlGE caseC10.custom_deadline (some 5) = true ∧
    (upcomingDeadlinePred 5 caseC10 = true ∧
      overdueDeadlinePred 5 caseC10 = true ∧
      0 < dashboardUpcomingCount 5 [caseC10] ∧
      0 < dashboardOverdueCount 5 [caseC10]) :=
  ⟨List.mem_singleton.mpr rfl, rfl, rfl, rfl,
    dashboard_counts_both 5 [caseC10] caseC10 (List.mem_singleton.mpr rfl)
      (Or.inl rfl) (Or.inl rfl) (Or.inr (Or.inr rfl))⟩

/-- A deadline-namespaced identifier never equals a creation-namespaced
one. -/
theorem deadline_id_ne_creation_id (a b : String) :
    ("deadline_" ++ a) ≠ ("creation_" ++ b) := by
  intro h
  have h2 := congrArg String.data h
  rw [String.data_append, String.data_append] at h2
  have ha : "deadline_".data = ['d', 'e', 'a', 'd', 'l', 'i', 'n', 'e', '_'] := rfl
  have hb : "creation_".data = ['c', 'r', 'e', 'a', 't', 'i', 'o', 'n', '_'] := rfl
  rw [ha, hb] at h2
  simp at h2

/-- A deadline-namespaced identifier never equals a reminder-namespaced
one. -/
theorem deadline_id_ne_reminder_id (a b : String) :
    ("deadline_" ++ a) ≠ ("reminder_" ++ b) := by
  intro h
  have h2 := congrArg String.data h
  rw [String.data_append, String.data_append] at h2
  have ha : "deadline_".data = ['d', 'e', 'a', 'd', 'l', 'i', 'n', 'e', '_'] := rfl
  have hb : "reminder_".data = ['r', 'e', 'm', 'i', 'n', 'd', 'e', 'r', '_'] := rfl
  rw [ha, hb] at h2
  simp at h2

/-- A creation-namespaced identifier never equals a reminder-namespaced
one. -/
theorem creation_id_ne_reminder_id (a b : String) :
    ("creation_" ++ a) ≠ ("reminder_" ++ b) := by
  intro h
  have h2 := congrArg String.data h
  rw [String.data_append, String.data_append] at h2
  have ha : "creation_".data = ['c', 'r', 'e', 'a', 't', 'i', 'o', 'n', '_'] := rfl
  have hb : "reminder_".data = ['r', 'e', 'm', 'i', 'n', 'd', 'e', 'r', '_'] := rfl
  rw [ha, hb] at h2
  simp at h2

/-- Every calendar event comes from one of the three sources and carries
the identifier namespaced by that source. -/
theorem calendar_event_source (s e today now : Int) (cases : List SARCase)
    (reminders : List ReminderRow) (ev : CalendarEvent)
    (h : ev ∈ get_calendar_events_data s e today now cases reminders) :
    (∃ n : Nat, ev.event_type = "Deadline" ∧ ev.id = "deadline_" ++ toString n) ∨
    (∃ n : Nat, ev.event_type = "Case Creation" ∧ ev.id = "creation_" ++ toString n) ∨
    (∃ n : Nat, ev.event_type = "Reminder" ∧ ev.id = "reminder_" ++ toString n) := by
  unfold get_calendar_events_data at h
  rw [List.mem_mergeSort] at h
  rcases List.mem_append.mp h with h1 | h1
  · rcases List.mem_append.mp h1 with h2 | h2
    · rcases List.mem_map.mp h2 with ⟨c, _, rfl⟩
      exact Or.inl ⟨c.id, rfl, rfl⟩
    · rcases List.mem_map.mp h2 with ⟨c, _, rfl⟩
      exact Or.inr (Or.inl ⟨c.id, rfl, rfl⟩)
  · rcases List.mem_map.mp h1 with ⟨rr, _, rfl⟩
    exact Or.inr (Or.inr ⟨rr.id, rfl, rfl⟩)

/-- C9, counterexample: a Responded case whose effective
(custom-over-extended-over-statutory) deadline, day 5, lies inside the
window `[0, 10]` produces no calendar event at all: the deadline source
only covers Pending and Overdue cases. -/
theorem calendar_window_counterexample :
    effective_deadline_spec caseC9 = some 5 ∧
    ((0 : Int) ≤ 5 ∧ (5 : Int) ≤ 10) ∧
    get_calendar_events_data 0 10 7 (7 * 1440) [caseC9] [] = [] := by
  refine ⟨rfl, by decide, ?_⟩
  unfold get_calendar_events_data
  have hl : ((([caseC9].filter (inDeadlineWindow 0 10)).map (mkDeadlineEvent 7)) ++
      (([caseC9].filter (inCreationWindow 0 10)).map mkCreationEvent) ++
      ((([] : List ReminderRow).filter (inReminderWindow 0 10)).map
        (mkReminderEvent (7 * 1440)))) = ([] : List CalendarEvent) := rfl
  rw [hl, List.mergeSort_nil]

/-- C9, amended: the calendar event list is sorted ascending by
`event_date`; it contains one deadline entry for every Pending or Overdue
case having at least one of its three deadline columns inside the window,
dated at the custom-over-extended-over-statutory deadline (cases in other
statuses get no deadline entry even when that deadline is in the window);
and identifiers are namespaced by source, so identifiers of events from
different sources never collide. -/
theorem calendar_events_amended (s e today now : Int) (cases : List SARCase)
    (reminders : List ReminderRow) :
    List.Sorted (fun a b : CalendarEvent => a.event_date ≤ b.event_date)
      (get_calendar_events_data s e today now cases reminders) ∧
    (∀ c ∈ cases, inDeadlineWindow s e c = true →
      mkDeadlineEvent today c ∈ get_calendar_events_data s e today now cases reminders) ∧
    (∀ ev ∈ get_calendar_events_data s e today now cases reminders,
      ∀ ev2 ∈ get_calendar_events_data s e today now cases reminders,
        ev.event_type ≠ ev2.event_type → ev.id ≠ ev2.id) := by
  refine ⟨?_, ?_, ?_⟩
  · have htrans : ∀ a b c : CalendarEvent,
        eventLE a b = true → eventLE b c = true → eventLE a c = true := by
      intro a b c hab hbc
      unfold eventLE at hab hbc ⊢
      exact decide_eq_true (le_trans (of_decide_eq_true hab) (of_decide_eq_true hbc))
    have htotal : ∀ a b : CalendarEvent, (eventLE a b || eventLE b a) = true := by
      intro a b
      simp only [eventLE, Bool.or_eq_true, decide_eq_true_eq]
      exact le_total _ _
    have hs := @List.sorted_mergeSort CalendarEvent eventLE htrans htotal
      (((cases.filter (inDeadlineWindow s e)).map (mkDeadlineEvent today)) ++
       ((cases.filter (inCreationWindow s e)).map mkCreationEvent) ++
       ((reminders.filter (inReminderWindow s e)).map (mkReminderEvent now)))
    exact List.Pairwise.imp (fun hab => of_decide_eq_true hab) hs
  · intro c hc hw
    unfold get_calendar_events_data
    rw [List.mem_mergeSort]
    exact List.mem_append.mpr (Or.inl (List.mem_append.mpr (Or.inl
      (List.mem_map.mpr ⟨c, List.mem_filter.mpr ⟨hc, hw⟩, rfl⟩))))
  · intro ev hev ev2 hev2 hne
    rcases calendar_event_source s e today now cases reminders ev hev with
      ⟨n, ht, hid⟩ | ⟨n, ht, hid⟩ | ⟨n, ht, hid⟩
    · rcases calendar_event_source s e today now cases reminders ev2 hev2 with
        ⟨m, ht2, hid2⟩ | ⟨m, ht2, hid2⟩ | ⟨m, ht2, hid2⟩
      · exact absurd (ht.trans ht2.symm) hne
      · rw [hid, hid2]
        exact deadline_id_ne_creation_id _ _
      · rw [hid, hid2]
        exact deadline_id_ne_reminder_id _ _
    · rcases calendar_event_source s e today now cases reminders ev2 hev2 with
        ⟨m, ht2, hid2⟩ | ⟨m, ht2, hid2⟩ | ⟨m, ht2, hid2⟩
      · rw [hid, hid2]
        exact fun hx => deadline_id_ne_creation_id _ _ hx.symm
      · exact absurd (ht.trans ht2.symm) hne
      · rw [hid, hid2]
        exact creation_id_ne_reminder_id _ _
    · rcases calendar_event_source s e today now cases reminders ev2 hev2 with
        ⟨m, ht2, hid2⟩ | ⟨m, ht2, hid2⟩ | ⟨m, ht2, hid2⟩
      · rw [hid, hid2]
        exact fun hx => deadline_id_ne_reminder_id _ _ hx.symm
      · rw [hid, hid2]
        exact fun hx => creation_id_ne_reminder_id _ _ hx.symm
      · exact absurd (ht.trans ht2.symm) hne

/-- Witness for `calendar_events_amended`: the Pending case with custom
deadline day 5 passes the window filter for `[0, 10]` and its deadline
event appears in the sorted result. -/
theorem calendar_events_amended_witness :
    inDeadlineWindow 0 10 caseC9w = true ∧
    List.Sorted (fun a b : CalendarEvent => a.event_date ≤ b.event_date)
      (get_calendar_events_data 0 10 7 (7 * 1440) [caseC9w] []) ∧
    mkDeadlineEvent 7 caseC9w ∈ get_calendar_events_data 0 10 7 (7 * 1440) [caseC9w] [] :=
  ⟨rfl, (calendar_events_amended 0 10 7 (7 * 1440) [caseC9w] []).1,
    (calendar_events_amended 0 10 7 (7 * 1440) [caseC9w] []).2.1 caseC9w
      (List.mem_singleton.mpr rfl) rfl⟩

end SAR
